import Mathlib

/-!
Verification development for the brushbloom image asset service
(src/handlers/image.rs, src/handlers/mod.rs).

Shallow embedding conventions:
* Rust `String` is Lean `String`; `to_lowercase` is `String.toLower`
  (all relevant target strings are ASCII).
* `u32` values are `Nat` with arithmetic reduced mod 2^32 where the source
  can overflow; the unguarded `u32` subtractions in the watermark anchor
  are modelled by `u32sub` (wrapping semantics of a release build).
* `usize as u32` (the metadata size cast) is `% 2^32`.
* `f32` arithmetic in `resize_image` is modelled as exact rational
  arithmetic with round-half-away-from-zero (`round` on `ℚ`, which for the
  nonnegative values arising here agrees with Rust `f32::round`).
* The filesystem is a pair of path-keyed association lists: raw byte blobs
  (the configured `file_path` directory) and metadata sidecars (the
  configured `meta_path` directory); a write prepends, a read takes the
  most recent entry.  UUID generation and the pixel codec (photon-rs) are
  external collaborators: fresh ids and encoded bytes enter as parameters.
-/

/-- Image byte blobs, values opaque to the core logic. -/
abbrev Bytes := List Nat

/-- Format enumeration of src/handlers/image.rs (lines 27-34). -/
inductive ImageFormat where
  | Jpeg
  | Png
  | Gif
  | WebP
  | Unknown
deriving DecidableEq, Repr

/-- Extension mapping `ImageFormat::as_str` of src/handlers/image.rs (lines 36-46). -/
def ImageFormat.as_str : ImageFormat → String
  | .Jpeg => ".jpeg"
  | .Png => ".png"
  | .Gif => ".gif"
  | .WebP => ".webp"
  | .Unknown => ""

/-- Rust `str::to_lowercase`, modelled as character-wise ASCII lowercasing
(the four target content-type strings are ASCII). -/
def to_lowercase (s : String) : String := ⟨s.data.map Char.toLower⟩

/-- Format detector `detect_image_format` of src/handlers/image.rs (lines 48-56):
a `match` on the lowercased content type against four string literals. -/
def detect_image_format (content_type : String) : ImageFormat :=
  if to_lowercase content_type = "image/jpeg" then .Jpeg
  else if to_lowercase content_type = "image/png" then .Png
  else if to_lowercase content_type = "image/gif" then .Gif
  else if to_lowercase content_type = "image/webp" then .WebP
  else .Unknown

/-- Metadata sidecar record `ImgMetadata` of src/handlers/mod.rs (lines 10-13);
`size_in_bytes` is a `u32` in the source. -/
structure ImgMetadata where
  fmt : String
  size_in_bytes : Nat
deriving DecidableEq, Repr

/-- Wrapping `u32` subtraction (release-build semantics of `a - b` on `u32`),
defined for `a b < 2^32`. -/
def u32sub (a b : Nat) : Nat := (a + 2 ^ 32 - b) % 2 ^ 32

/-- One path-keyed directory: most recent write first. -/
def fsRead {α : Type} (fs : List (String × α)) (path : String) : Option α :=
  match fs with
  | [] => none
  | (p, d) :: rest => if p = path then some d else fsRead rest path

def fsWrite {α : Type} (fs : List (String × α)) (path : String) (data : α) :
    List (String × α) :=
  (path, data) :: fs

/-- The two parallel persisted namespaces: raw bytes under the configured
`file_path` root, metadata sidecars under the `meta_path` root. -/
structure Store where
  files : List (String × Bytes)
  metas : List (String × ImgMetadata)
deriving DecidableEq, Repr

/-- Upload persistence `write_file` of src/handlers/image.rs (lines 111-175):
detects the format from the declared content type, writes the bytes at
`{file_path}/{file_id}{ext}`, then writes the sidecar
`ImgMetadata { fmt: ext, size_in_bytes: file_data.len() as u32 }` at
`{meta_path}/{file_id}`.  The fresh UUID `file_id` enters as a parameter.
Returns the new store and the `FileResponse { id, fmt }` payload. -/
def write_file (st : Store) (file_path meta_path : String) (file_id : String)
    (image_type : String) (file_data : Bytes) : Store × String × String :=
  let image_format := detect_image_format image_type
  let fpath := file_path ++ "/" ++ file_id ++ image_format.as_str
  let meta : ImgMetadata :=
    { fmt := image_format.as_str, size_in_bytes := file_data.length % 2 ^ 32 }
  let mpath := meta_path ++ "/" ++ file_id
  ({ files := fsWrite st.files fpath file_data,
     metas := fsWrite st.metas mpath meta },
   file_id, image_format.as_str)

/-- Byte retrieval `get_img_data` of src/handlers/image.rs (lines 427-432):
reads the file at the given full path. -/
def get_img_data (st : Store) (img_path : String) : Option Bytes :=
  fsRead st.files img_path

/-- Result of the retrieval endpoint, by status class. -/
inductive GetImageResult where
  | badRequest (msg : String)
  | ok (data : Bytes)
  | internalError (msg : String)
deriving DecidableEq, Repr

/-- Retrieval endpoint `get_image` of src/handlers/image.rs (lines 177-225):
takes the caller-supplied Content-Type header (defaulting to
`application/octet-stream` when absent), detects the format FROM THAT
HEADER, rejects Unknown with 400, then reads the bytes at
`{file_path}/{img_id}{ext-of-header-format}`; a read failure is a 500.
The stored metadata sidecar is never consulted. -/
def get_image (st : Store) (file_path : String)
    (content_type_header : Option String) (img_id : String) : GetImageResult :=
  let ct := content_type_header.getD "application/octet-stream"
  let img_fmt := detect_image_format ct
  if img_fmt = ImageFormat.Unknown then
    .badRequest "unknown image format"
  else
    let full_path := file_path ++ "/" ++ img_id ++ img_fmt.as_str
    match get_img_data st full_path with
    | some data => .ok data
    | none => .internalError "Failed to read file data"

/-- Derived-asset save `save_new_iamge` of src/handlers/mod.rs (lines 142-155):
writes the encoded image at `{file_path}/{new_image_id}{img_meta.fmt}` and
returns the new id.  No metadata sidecar is written.  The fresh UUID and the
encoded bytes (opaque codec output) enter as parameters. -/
def save_new_iamge (st : Store) (file_path : String) (img_meta : ImgMetadata)
    (new_image_id : String) (encoded : Bytes) : Store × String :=
  let output_path := file_path ++ "/" ++ new_image_id ++ img_meta.fmt
  ({ st with files := fsWrite st.files output_path encoded }, new_image_id)

/-- Anchor resolution of `add_watermark_to_image`, src/handlers/mod.rs
(lines 76-81): a `match` on the position string; `"center"` and
`"bottom-right"` use unguarded `u32` subtractions. -/
def add_watermark_anchor (width height : Nat) (position : String) : Nat × Nat :=
  if position = "top-left" then (10, 10)
  else if position = "center" then (u32sub (width / 2) 50, u32sub (height / 2) 20)
  else if position = "bottom-right" then (u32sub width 100, u32sub height 40)
  else (10, 10)

/-- Decoded in-memory image: dimensions plus the list of drawn texts
(text, x, y, font size); pixel content is opaque codec state. -/
structure PhotonImage where
  width : Nat
  height : Nat
  marks : List (String × Nat × Nat × Nat)
deriving DecidableEq, Repr

/-- Opaque photon-rs `draw_text`: records the drawn text at the given anchor. -/
def draw_text (img : PhotonImage) (text : String) (x y : Nat) (font_size : Nat) :
    PhotonImage :=
  { img with marks := (text, x, y, font_size) :: img.marks }

/-- Watermark helper `add_watermark_to_image` of src/handlers/mod.rs
(lines 74-91): resolves the anchor and draws the text there, mutating the
image in place; there is no error path. -/
def add_watermark_to_image (img : PhotonImage) (text : String)
    (position : String) (font_size : Nat) : PhotonImage :=
  let a := add_watermark_anchor img.width img.height position
  draw_text img text a.1 a.2 font_size

/-- Dimension computation of `resize_image`, src/handlers/mod.rs
(lines 93-140): the four-way match on (width, height, maintain_aspect),
with the `f32` ratio arithmetic modelled exactly over `ℚ` and `.round()`
as `round`.  Returns the engine error of the (None, None) branch. -/
def resize_image_dims (orig_width orig_height : Nat)
    (width height : Option Nat) (maintain_aspect : Bool) :
    Except String (Nat × Nat) :=
  match width, height, maintain_aspect with
  | some w, some h, false => .ok (w, h)
  | some w, none, _ =>
      let ratio : ℚ := (w : ℚ) / (orig_width : ℚ)
      .ok (w, (round ((orig_height : ℚ) * ratio)).toNat)
  | none, some h, _ =>
      let ratio : ℚ := (h : ℚ) / (orig_height : ℚ)
      .ok ((round ((orig_width : ℚ) * ratio)).toNat, h)
  | some w, some h, true =>
      let width_ratio : ℚ := (w : ℚ) / (orig_width : ℚ)
      let height_ratio : ℚ := (h : ℚ) / (orig_height : ℚ)
      let ratio := min width_ratio height_ratio
      .ok ((round ((orig_width : ℚ) * ratio)).toNat,
           (round ((orig_height : ℚ) * ratio)).toNat)
  | none, none, _ =>
      .error "At least one of width or height must be specified"

/-- Request body of the resize endpoint, src/handlers/mod.rs (lines 38-43):
`width` and `height` are mandatory (non-optional) fields. -/
structure ResizeImageRequest where
  width : Nat
  height : Nat
  maintain_aspect : Bool
deriving DecidableEq, Repr

/-- Tail of the resize endpoint `resize_img`, src/handlers/image.rs
(lines 296-311): an engine error is rendered with status 500
(`StatusCode::INTERNAL_SERVER_ERROR`) and nothing is written; on success the
encoded result is saved at the output path and status 200 is returned. -/
def resize_img_render (st : Store) (output_path : String) (encoded : Bytes)
    (res : Except String (Nat × Nat)) : Store × Nat :=
  match res with
  | .error _ => (st, 500)
  | .ok _ => ({ st with files := fsWrite st.files output_path encoded }, 200)

/-- Resize endpoint `resize_img` of src/handlers/image.rs (lines 261-320):
always calls the engine with `Some(req.width)` and `Some(req.height)`. -/
def resize_img (st : Store) (file_path : String) (img_meta : ImgMetadata)
    (orig_width orig_height : Nat) (req : ResizeImageRequest)
    (new_image_id : String) (encoded : Bytes) : Store × Nat :=
  resize_img_render st (file_path ++ "/" ++ new_image_id ++ img_meta.fmt) encoded
    (resize_image_dims orig_width orig_height
      (some req.width) (some req.height) req.maintain_aspect)

/-- HTTP client-error status class (4xx). -/
def clientErrorStatus (s : Nat) : Prop := 400 ≤ s ∧ s < 500

/-- HTTP server-error status class (5xx). -/
def serverErrorStatus (s : Nat) : Prop := 500 ≤ s ∧ s < 600

/-- Reading a freshly written path returns the written entry. -/
lemma fsRead_fsWrite_hit {α : Type} (fs : List (String × α)) (p : String)
    (d : α) : fsRead (fsWrite fs p d) p = some d := by
  simp [fsRead, fsWrite]

/-- Wrapping subtraction agrees with plain subtraction when it cannot underflow. -/
lemma u32sub_eq_sub (a b : Nat) (hba : b ≤ a) (ha : a < 2 ^ 32) :
    u32sub a b = a - b := by
  unfold u32sub
  omega

/-- Wrapping subtraction always yields a valid `u32`. -/
lemma u32sub_lt (a b : Nat) : u32sub a b < 2 ^ 32 := by
  unfold u32sub
  omega

/-- Wrapping subtraction underflows when the subtrahend exceeds the minuend. -/
lemma u32sub_underflow (a b : Nat) (hab : a < b) :
    u32sub a b = a + 2 ^ 32 - b := by
  unfold u32sub
  omega

/-- Claim C4: `detect_image_format` maps a string to one of the four known
formats exactly when its (ASCII-)lowercased form equals the corresponding
content-type literal, and to `Unknown` for every other string; it is a pure
function of its input, and `ImageFormat.as_str` yields the canonical dotted
extension for the four formats and the empty string for `Unknown`. -/
theorem detect_image_format_characterisation :
    (∀ s : String,
      (detect_image_format s = ImageFormat.Jpeg ↔ to_lowercase s = "image/jpeg") ∧
      (detect_image_format s = ImageFormat.Png ↔ to_lowercase s = "image/png") ∧
      (detect_image_format s = ImageFormat.Gif ↔ to_lowercase s = "image/gif") ∧
      (detect_image_format s = ImageFormat.WebP ↔ to_lowercase s = "image/webp") ∧
      (detect_image_format s = ImageFormat.Unknown ↔
        ¬(to_lowercase s = "image/jpeg" ∨ to_lowercase s = "image/png" ∨
          to_lowercase s = "image/gif" ∨ to_lowercase s = "image/webp"))) ∧
    ImageFormat.as_str .Jpeg = ".jpeg" ∧ ImageFormat.as_str .Png = ".png" ∧
    ImageFormat.as_str .Gif = ".gif" ∧ ImageFormat.as_str .WebP = ".webp" ∧
    ImageFormat.as_str .Unknown = "" := by
  refine ⟨fun s => ?_, rfl, rfl, rfl, rfl, rfl⟩
  unfold detect_image_format
  split_ifs with h1 h2 h3 h4 <;> simp_all

/-- Claim C6: the watermark anchor resolves to (10, 10) for "top-left" and for
any unrecognized position, to (width/2 - 50, height/2 - 20) for "center", and
to (width - 100, height - 40) for "bottom-right" (plain subtraction, on images
large enough that the `u32` arithmetic cannot underflow); in particular
"center" on a 200 by 100 image anchors the drawn text at (50, 30). -/
theorem add_watermark_anchor_resolution (w h : Nat) (pos : String)
    (hw : 100 ≤ w) (hh : 40 ≤ h) (hw32 : w < 2 ^ 32) (hh32 : h < 2 ^ 32) :
    add_watermark_anchor w h "top-left" = (10, 10) ∧
    add_watermark_anchor w h "center" = (w / 2 - 50, h / 2 - 20) ∧
    add_watermark_anchor w h "bottom-right" = (w - 100, h - 40) ∧
    (pos ≠ "top-left" → pos ≠ "center" → pos ≠ "bottom-right" →
      add_watermark_anchor w h pos = (10, 10)) ∧
    (add_watermark_to_image ⟨200, 100, []⟩ "hello" "center" 24).marks =
      [("hello", 50, 30, 24)] := by
  refine ⟨rfl, ?_, ?_, ?_, by decide⟩
  · show (if ("center" : String) = "top-left" then ((10 : Nat), (10 : Nat))
      else (u32sub (w / 2) 50, u32sub (h / 2) 20)) = (w / 2 - 50, h / 2 - 20)
    rw [if_neg (by decide)]
    rw [u32sub_eq_sub _ _ (by omega) (by omega), u32sub_eq_sub _ _ (by omega) (by omega)]
  · show (if ("bottom-right" : String) = "top-left" then ((10 : Nat), (10 : Nat))
      else if ("bottom-right" : String) = "center" then (u32sub (w / 2) 50, u32sub (h / 2) 20)
      else (u32sub w 100, u32sub h 40)) = (w - 100, h - 40)
    rw [if_neg (by decide), if_neg (by decide)]
    rw [u32sub_eq_sub _ _ (by omega) (by omega), u32sub_eq_sub _ _ (by omega) (by omega)]
  · intro h1 h2 h3
    unfold add_watermark_anchor
    rw [if_neg h1, if_neg h2, if_neg h3]

/-- Witness for C6: the resolution theorem applied to a 200 by 100 image. -/
theorem add_watermark_anchor_resolution_witness :
    (100 : Nat) ≤ 200 ∧ (40 : Nat) ≤ 100 ∧
    add_watermark_anchor 200 100 "center" = (50, 30) :=
  ⟨by decide, by decide,
    (add_watermark_anchor_resolution 200 100 "elsewhere"
      (by decide) (by decide) (by decide) (by decide)).2.1⟩

/-- Claim C9: watermark anchor resolution is total and non-fatal for every
image size and position string: each anchor component is a valid `u32`, the
watermark operation always succeeds (it unconditionally draws one text and
returns the image, with no error path), and on images narrower than 100
pixels the "bottom-right" and "center" subtractions underflow, wrapping to an
anchor at or past the image bounds, which is accepted without error. -/
theorem add_watermark_anchor_total (w h : Nat) (pos : String)
    (hw : w < 2 ^ 32) (hh : h < 2 ^ 32) :
    ((add_watermark_anchor w h pos).1 < 2 ^ 32 ∧
      (add_watermark_anchor w h pos).2 < 2 ^ 32) ∧
    (∀ (img : PhotonImage) (text : String) (font : Nat),
      add_watermark_to_image img text pos font =
        { img with
            marks := (text, (add_watermark_anchor img.width img.height pos).1,
              (add_watermark_anchor img.width img.height pos).2, font) :: img.marks }) ∧
    (w < 100 →
      (add_watermark_anchor w h "bottom-right").1 = w + 2 ^ 32 - 100 ∧
      w ≤ (add_watermark_anchor w h "bottom-right").1) ∧
    (w / 2 < 50 →
      (add_watermark_anchor w h "center").1 = w / 2 + 2 ^ 32 - 50) := by
  refine ⟨?_, fun img text font => rfl, ?_, ?_⟩
  · unfold add_watermark_anchor
    split_ifs <;> exact ⟨by first | decide | exact u32sub_lt _ _,
      by first | decide | exact u32sub_lt _ _⟩
  · intro hsmall
    have hval : (add_watermark_anchor w h "bottom-right").1 = u32sub w 100 := by
      unfold add_watermark_anchor
      rw [if_neg (by decide), if_neg (by decide), if_pos rfl]
    rw [hval, u32sub_underflow _ _ (by omega)]
    omega
  · intro hsmall
    have hval : (add_watermark_anchor w h "center").1 = u32sub (w / 2) 50 := by
      unfold add_watermark_anchor
      rw [if_neg (by decide)]
      rw [if_pos rfl]
    rw [hval, u32sub_underflow _ _ (by omega)]

/-- Witness for C9: the totality theorem applied to a 40 by 20 image, where
the "center" x-subtraction underflows to 2^32 - 30. -/
theorem add_watermark_anchor_total_witness :
    (40 : Nat) < 2 ^ 32 ∧ (20 : Nat) < 2 ^ 32 ∧
    (add_watermark_anchor 40 20 "center").1 = 40 / 2 + 2 ^ 32 - 50 :=
  ⟨by decide, by decide,
    (add_watermark_anchor_total 40 20 "center" (by decide) (by decide)).2.2.2
      (by decide)⟩

/-- Claim C5: `resize_image` computes output dimensions by the spec's case
analysis: both dimensions with maintain_aspect false give exactly (w, h);
only width gives height = round(origHeight * w / origWidth); only height
symmetrically; both with maintain_aspect true scale both axes by
min(w/origWidth, h/origHeight), rounded; and 100 by 100 with aspect
maintained on a 400 by 200 source yields 100 by 50. -/
theorem resize_image_dims_cases (ow oh w h : Nat) (aspect : Bool) :
    resize_image_dims ow oh (some w) (some h) false = .ok (w, h) ∧
    resize_image_dims ow oh (some w) none aspect =
      .ok (w, (round ((oh : ℚ) * w / ow)).toNat) ∧
    resize_image_dims ow oh none (some h) aspect =
      .ok ((round ((ow : ℚ) * h / oh)).toNat, h) ∧
    resize_image_dims ow oh (some w) (some h) true =
      .ok ((round ((ow : ℚ) * min ((w : ℚ) / ow) ((h : ℚ) / oh))).toNat,
           (round ((oh : ℚ) * min ((w : ℚ) / ow) ((h : ℚ) / oh))).toNat) ∧
    resize_image_dims 400 200 (some 100) (some 100) true = .ok (100, 50) := by
  refine ⟨rfl, ?_, ?_, rfl, ?_⟩
  · show Except.ok (w, (round ((oh : ℚ) * ((w : ℚ) / (ow : ℚ)))).toNat) =
      Except.ok (w, (round ((oh : ℚ) * w / ow)).toNat)
    rw [mul_div_assoc]
  · show Except.ok ((round ((ow : ℚ) * ((h : ℚ) / (oh : ℚ)))).toNat, h) =
      Except.ok ((round ((ow : ℚ) * h / oh)).toNat, h)
    rw [mul_div_assoc]
  · show Except.ok
        ((round ((400 : ℚ) * min ((100 : ℚ) / 400) ((100 : ℚ) / 200))).toNat,
         (round ((200 : ℚ) * min ((100 : ℚ) / 400) ((100 : ℚ) / 200))).toNat) =
      Except.ok ((100 : Nat), (50 : Nat))
    norm_num [round_eq]
    decide

/-- Claim C3 counterexample: the resize engine invoked with neither width nor
height does fail with the parameter error and the handler performs no write,
but the request boundary of `resize_img` renders that failure with status
500, which is not in the client-error class. -/
theorem resize_param_error_not_client_error :
    resize_image_dims 400 300 none none false =
      .error "At least one of width or height must be specified" ∧
    resize_img_render ⟨[], []⟩ "files/x.png" []
      (resize_image_dims 400 300 none none false) = (⟨[], []⟩, 500) ∧
    ¬ clientErrorStatus 500 := by
  refine ⟨rfl, rfl, ?_⟩
  simp [clientErrorStatus]

/-- Claim C3 (amended): `resize_image` with neither width nor height fails
with the parameter error and performs no filesystem writes, and the request
boundary renders that failure with the server-error status 500 (not a
client-error status), leaving the store unchanged. -/
theorem resize_param_error_rendered_500 (st : Store) (p : String) (enc : Bytes)
    (ow oh : Nat) (aspect : Bool) :
    resize_image_dims ow oh none none aspect =
      .error "At least one of width or height must be specified" ∧
    resize_img_render st p enc (resize_image_dims ow oh none none aspect) =
      (st, 500) ∧
    serverErrorStatus 500 := by
  refine ⟨rfl, rfl, ?_⟩
  simp [serverErrorStatus]

/-- Claim C10: the resize endpoint's request type carries mandatory width and
height, and `resize_img` always passes both to the engine, so the engine
result always comes from the two both-dimensions branches (the
single-dimension branches and the parameter-error branch are unreachable
through the public interface) and the endpoint never renders the engine
error. -/
theorem resize_img_always_both_dims (req : ResizeImageRequest) (ow oh : Nat)
    (st : Store) (fp : String) (meta : ImgMetadata) (newId : String)
    (enc : Bytes) :
    resize_image_dims ow oh (some req.width) (some req.height)
        req.maintain_aspect =
      .ok (if req.maintain_aspect then
            ((round ((ow : ℚ) * min ((req.width : ℚ) / ow) ((req.height : ℚ) / oh))).toNat,
             (round ((oh : ℚ) * min ((req.width : ℚ) / ow) ((req.height : ℚ) / oh))).toNat)
          else (req.width, req.height)) ∧
    (resize_img st fp meta ow oh req newId enc).2 = 200 := by
  have hdims : resize_image_dims ow oh (some req.width) (some req.height)
      req.maintain_aspect =
    .ok (if req.maintain_aspect then
          ((round ((ow : ℚ) * min ((req.width : ℚ) / ow) ((req.height : ℚ) / oh))).toNat,
           (round ((oh : ℚ) * min ((req.width : ℚ) / ow) ((req.height : ℚ) / oh))).toNat)
        else (req.width, req.height)) := by
    cases hA : req.maintain_aspect <;> simp [resize_image_dims, hA]
  refine ⟨hdims, ?_⟩
  unfold resize_img
  rw [hdims]
  rfl

/-- Claim C7: a successful upload of bytes under a supported format followed
by a byte lookup for the returned id with that same format yields exactly the
original bytes, byte for byte. -/
theorem put_get_bytes_roundtrip (st : Store) (fp mp id ct : String)
    (data : Bytes) (F : ImageFormat) (hdet : detect_image_format ct = F)
    (hF : F ≠ ImageFormat.Unknown) :
    get_img_data (write_file st fp mp id ct data).1
      (fp ++ "/" ++ id ++ F.as_str) = some data := by
  subst hdet
  simp [write_file, get_img_data, fsRead, fsWrite]

/-- Witness for C7: a PNG upload of the bytes [1, 2, 3] reads back intact. -/
theorem put_get_bytes_roundtrip_witness :
    detect_image_format "image/png" = ImageFormat.Png ∧
    ImageFormat.Png ≠ ImageFormat.Unknown ∧
    get_img_data (write_file ⟨[], []⟩ "files" "meta" "abc" "image/png"
        [1, 2, 3]).1
      ("files" ++ "/" ++ "abc" ++ ImageFormat.as_str ImageFormat.Png) =
      some [1, 2, 3] :=
  ⟨by decide, by decide,
    put_get_bytes_roundtrip ⟨[], []⟩ "files" "meta" "abc" "image/png" [1, 2, 3]
      ImageFormat.Png (by decide) (by decide)⟩

/-- Claim C8 (amended): the metadata sidecar written by an upload records the
extension of the detected format and the persisted byte length reduced
modulo 2^32 (the `as u32` cast in the source); whenever the blob is smaller
than 2^32 bytes this is the exact length. -/
theorem upload_metadata_fields (st : Store) (fp mp id ct : String)
    (data : Bytes) :
    fsRead (write_file st fp mp id ct data).1.metas (mp ++ "/" ++ id) =
      some ⟨(detect_image_format ct).as_str, data.length % 2 ^ 32⟩ ∧
    (data.length < 2 ^ 32 →
      fsRead (write_file st fp mp id ct data).1.metas (mp ++ "/" ++ id) =
        some ⟨(detect_image_format ct).as_str, data.length⟩) := by
  have h1 : fsRead (write_file st fp mp id ct data).1.metas (mp ++ "/" ++ id) =
      some ⟨(detect_image_format ct).as_str, data.length % 2 ^ 32⟩ :=
    fsRead_fsWrite_hit _ _ _
  refine ⟨h1, fun hlt => ?_⟩
  rw [h1, Nat.mod_eq_of_lt hlt]

/-- Witness for C8: a 3-byte PNG upload stores a sidecar with size 3. -/
theorem upload_metadata_fields_witness :
    ([1, 2, 3] : Bytes).length < 2 ^ 32 ∧
    fsRead (write_file ⟨[], []⟩ "files" "meta" "abc" "image/png"
        [1, 2, 3]).1.metas ("meta" ++ "/" ++ "abc") = some ⟨".png", 3⟩ := by
  refine ⟨by decide, ?_⟩
  have h := (upload_metadata_fields ⟨[], []⟩ "files" "meta" "abc" "image/png"
    [1, 2, 3]).2 (by decide)
  have hd : (detect_image_format "image/png").as_str = ".png" := by decide
  rw [hd] at h
  exact h

/-- Claim C8 counterexample: on a blob of exactly 2^32 bytes the stored
`size_in_bytes` wraps to 0 and does not equal the persisted byte length. -/
theorem upload_metadata_size_wraps :
    fsRead (write_file ⟨[], []⟩ "files" "meta" "abc" "image/png"
        (List.replicate (2 ^ 32) 0)).1.metas ("meta" ++ "/" ++ "abc") =
      some ⟨".png", (List.replicate (2 ^ 32) (0 : Nat)).length % 2 ^ 32⟩ ∧
    (List.replicate (2 ^ 32) (0 : Nat)).length % 2 ^ 32 = 0 ∧
    (List.replicate (2 ^ 32) (0 : Nat)).length = 2 ^ 32 ∧
    (0 : Nat) ≠ 2 ^ 32 := by
  have hd : (detect_image_format "image/png").as_str = ".png" := by decide
  have hlen : (List.replicate (2 ^ 32) (0 : Nat)).length = 2 ^ 32 :=
    List.length_replicate _ _
  refine ⟨?_, by rw [hlen]; exact Nat.mod_self _, hlen, by norm_num⟩
  have h := fsRead_fsWrite_hit ([] : List (String × ImgMetadata))
    ("meta" ++ "/" ++ "abc")
    (⟨(detect_image_format "image/png").as_str,
      (List.replicate (2 ^ 32) (0 : Nat)).length % 2 ^ 32⟩ : ImgMetadata)
  conv_rhs => rw [show (".png" : String) = (detect_image_format "image/png").as_str from hd.symm]
  exact h

/-- Claim C1: `get_image` builds the byte-lookup path from the
caller-supplied Content-Type header, not from the stored sidecar: on a store
holding a PNG asset (bytes plus sidecar) under id "abc", a request declaring
image/jpeg misses and is answered with the read-failure error, while the
identical request declaring image/png returns the bytes. -/
theorem get_image_uses_header_not_metadata :
    get_image ⟨[("files/abc.png", [1, 2, 3])], [("meta/abc", ⟨".png", 3⟩)]⟩
        "files" (some "image/jpeg") "abc" =
      .internalError "Failed to read file data" ∧
    get_image ⟨[("files/abc.png", [1, 2, 3])], [("meta/abc", ⟨".png", 3⟩)]⟩
        "files" (some "image/png") "abc" = .ok [1, 2, 3] := by
  constructor <;> decide

/-- Claim C2: neither `save_new_iamge` nor the inline save of the resize
endpoint writes a metadata sidecar for the derived asset: starting from an
empty store, after a derived-asset save the metadata namespace is still
empty, so the new id has no sidecar at all. -/
theorem save_new_iamge_writes_no_sidecar :
    (save_new_iamge ⟨[], []⟩ "files" ⟨".png", 3⟩ "newid" [7, 7]).1.metas = [] ∧
    fsRead (save_new_iamge ⟨[], []⟩ "files" ⟨".png", 3⟩ "newid" [7, 7]).1.metas
      ("meta" ++ "/" ++ "newid") = none ∧
    (resize_img ⟨[], []⟩ "files" ⟨".png", 3⟩ 400 300 ⟨200, 150, false⟩
      "newid" [7]).1.metas = [] :=
  ⟨rfl, rfl, rfl⟩
